/-
Verification of the SMS-marketing backend's A/B-testing and delivery
pipeline core.

Shallow embedding of:
  * `app/services/sms_service.py`      — `SMSService.send_bulk_sms`
  * `app/routers/webhooks.py`          — `handle_delivery_report`
  * `app/services/ab_testing_service.py`
      — `create_ab_test`, `start_ab_test`, `update_ab_test_metrics`,
        `analyze_ab_test`, `_normal_cdf`
  * `app/models/ab_testing.py`, `app/models/message.py`,
    `app/models/campaign.py` — the data model.

Conventions of the embedding:
  * Python `int` counters are `ℕ` (they only ever hold non-negative row
    counts); Python `float` arithmetic is idealised as exact arithmetic
    over `ℚ`/`ℝ`.
  * A SQLAlchemy session is modelled by explicit state passing: a service
    call takes the committed database state and returns (response, new
    committed state).  `db.commit()` is the only persistence point; ORM
    attribute mutations made before a failing early `return` never reach
    the committed state, because the request-scoped session is closed
    (and hence rolled back) without a commit.
  * A Python statement that can raise (`ZeroDivisionError` on float
    division by zero, `ValueError` from `math.sqrt`/`math.asin` outside
    their domains, `AttributeError` on a missing ORM attribute) is
    modelled by an explicit error branch; the services' blanket
    `except Exception` handlers turn the raised error into an error
    response with no commit.
-/
import Mathlib

namespace SmsBackend

/-! ## Data model (`app/models/…`) -/

/-- `MessageStatus` from `app/models/message.py`. -/
inductive MessageStatus where
  | pending
  | sent
  | delivered
  | failed
  | received
  deriving DecidableEq, Repr

/-- `CampaignStatus` from `app/models/campaign.py`. -/
inductive CampaignStatus where
  | draft
  | scheduled
  | active
  | sending
  | sent
  | failed
  deriving DecidableEq, Repr

/-- `TestStatus` from `app/models/ab_testing.py`. -/
inductive TestStatus where
  | draft
  | running
  | completed
  | paused
  | cancelled
  deriving DecidableEq, Repr

/-- `TestType` from `app/models/ab_testing.py`. -/
inductive TestType where
  | message_content
  | send_time
  | sender_id
  | subject_line
  deriving DecidableEq, Repr

/-! ## BulkSender (`SMSService.send_bulk_sms`, `app/services/sms_service.py` 166-198) -/

/-- One entry of the `messages` list handed to `send_bulk_sms`
(`{"phone": …, "message": …, "sender_id": …}`). -/
structure BulkMessage where
  phone : String
  message : String
  sender_id : Option String
  deriving DecidableEq, Repr

/-- The dictionary returned by `SMSService.send_sms` for one message. -/
structure SendResult where
  success : Bool
  message_id : Option String
  status : String
  error : Option String
  deriving DecidableEq, Repr

/-- What one `send_sms` task yields under
`asyncio.gather(*tasks, return_exceptions=True)`: either the result
dictionary, or a raised exception (e.g. a provider timeout) captured as a
value instead of aborting the batch. -/
inductive SendOutcome where
  | ok (result : SendResult)
  | exn (e : String)
  deriving DecidableEq, Repr

/-- An element of the `results` list built by `send_bulk_sms`: the
per-message outcome record, tagged with the message's phone number. -/
structure BulkOutcome where
  success : Bool
  message_id : Option String
  status : String
  error : Option String
  phone : String
  deriving DecidableEq, Repr

/-- The per-message branch of `send_bulk_sms` (lines 181-193): an
exception captured by `gather` becomes a failed record carrying the
error string, a returned dictionary is passed through; either way the
record is tagged with `batch[j]["phone"]`. -/
def bulkOutcomeOf (send : BulkMessage → SendOutcome) (m : BulkMessage) : BulkOutcome :=
  match send m with
  | .exn e => { success := false, message_id := none, status := "failed",
                error := some e, phone := m.phone }
  | .ok r => { success := r.success, message_id := r.message_id, status := r.status,
               error := r.error, phone := m.phone }

/-- `SMSService.send_bulk_sms` (lines 166-198): the messages are processed
in batches of `batch_size = 10`; each batch is dispatched concurrently
through `gather(…, return_exceptions=True)` and its outcome records are
appended to `results` in batch order.  The provider interaction of a
single `send_sms` call is abstracted as the oracle `send`. -/
def send_bulk_sms (send : BulkMessage → SendOutcome) :
    List BulkMessage → List BulkOutcome
  | [] => []
  | m :: rest =>
      ((m :: rest).take 10).map (bulkOutcomeOf send) ++
        send_bulk_sms send ((m :: rest).drop 10)
  termination_by l => l.length
  decreasing_by
    simp only [List.length_drop, List.length_cons]
    omega

/-! ## DeliveryReconciler (`handle_delivery_report`, `app/routers/webhooks.py` 13-102) -/

/-- A row of the `messages` table (`app/models/message.py`).  The
provider-assigned identifier lives in the column `message_id`
("External message ID from provider"); there is no
`provider_message_id` attribute on the model. -/
structure MessageRec where
  id : ℕ
  campaign_id : Option ℕ
  message_id : Option String
  status : MessageStatus
  delivered_at : Option ℕ
  error_message : Option String
  deriving DecidableEq, Repr

/-- The slice of a `campaigns` row (`app/models/campaign.py`) that the
webhook handler reads and writes. -/
structure CampaignRec where
  id : ℕ
  status : CampaignStatus
  delivered_count : ℕ
  failed_count : ℕ
  sent_at : Option ℕ
  deriving DecidableEq, Repr

/-- The committed state visible to the webhook router. -/
structure MessagingDb where
  messages : List MessageRec
  campaigns : List CampaignRec
  deriving DecidableEq, Repr

/-- The fields the handler extracts from the webhook body:
`message_id = data.get('message_id') or data.get('sid') or data.get('id')`
and `status = data.get('status') or data.get('delivery_status')`; a
missing or empty value is `none`. -/
structure WebhookPayload where
  message_id : Option String
  status : Option String
  error_message : Option String
  deriving DecidableEq, Repr

/-- The JSON body of the handler's response. -/
inductive WebhookResponse where
  | success (message : String)
  | error (message : String)
  deriving DecidableEq, Repr

/-- Python's `str.lower()` on the provider status string (ASCII
lower-casing, spelled out over the character list so that concrete
instances reduce). -/
def lower (s : String) : String := ⟨s.data.map Char.toLower⟩

/-- The `status_mapping` dictionary (webhooks.py lines 42-49), applied to
the lower-cased provider status; `.get(status.lower(), MessageStatus.PENDING)`
defaults to `pending`. -/
def status_mapping (s : String) : MessageStatus :=
  if s = "delivered" then .sent
  else if s = "sent" then .sent
  else if s = "failed" then .failed
  else if s = "undelivered" then .failed
  else if s = "pending" then .pending
  else if s = "queued" then .pending
  else .pending

/-- `handle_delivery_report` (webhooks.py 13-102) as written.  After the
missing-field check, line 54 builds the query
`db.query(Message).filter(Message.provider_message_id == message_id)`.
The `Message` model has no attribute `provider_message_id` (its
provider-id column is `message_id`), so the attribute access raises
`AttributeError`; the blanket `except Exception` (lines 100-102) turns
every such request into an error response.  No row is modified and
nothing is committed, so the database is returned unchanged. -/
def handle_delivery_report (db : MessagingDb) (data : WebhookPayload) (_now : ℕ) :
    WebhookResponse × MessagingDb :=
  let message_id := data.message_id.getD ""
  let status := data.status.getD ""
  if message_id = "" ∨ status = "" then
    (.error "Missing required fields", db)
  else
    (.error "Internal server error", db)

/-- Replace the message row with id `m.id` by `m` (the committed effect of
mutating the ORM object and calling `db.commit()`). -/
def update_message (db : MessagingDb) (m : MessageRec) : MessagingDb :=
  { db with messages := db.messages.map fun x => if x.id == m.id then m else x }

/-- Replace the campaign row with id `c.id` by `c`. -/
def update_campaign (db : MessagingDb) (c : CampaignRec) : MessagingDb :=
  { db with campaigns := db.campaigns.map fun x => if x.id == c.id then c else x }

/-- `db.query(Message).filter(campaign_id == id, status == SENT).count()`
(webhooks.py 73-76). -/
def sent_message_count (db : MessagingDb) (cid : ℕ) : ℕ :=
  (db.messages.filter fun m =>
    m.campaign_id == some cid && m.status == MessageStatus.sent).length

/-- `db.query(Message).filter(campaign_id == id, status == FAILED).count()`
(webhooks.py 78-81). -/
def failed_message_count (db : MessagingDb) (cid : ℕ) : ℕ :=
  (db.messages.filter fun m =>
    m.campaign_id == some cid && m.status == MessageStatus.failed).length

/-- `db.query(Message).filter(campaign_id == id).count()` (webhooks.py 87-89). -/
def total_message_count (db : MessagingDb) (cid : ℕ) : ℕ :=
  (db.messages.filter fun m => m.campaign_id == some cid).length

/-- The reconciliation body of `handle_delivery_report` (webhooks.py
51-98) — the code downstream of the failing query, with the message
lookup joining on the `Message` model's actual provider-id column
`message_id`.  This is the update logic the attribute slip on line 55
makes unreachable: status mapping, message update, re-derivation of the
campaign's delivered/failed counts from the message rows, and the
completion transition to `CampaignStatus.SENT`. -/
def reconcile_delivery_report (db : MessagingDb) (mid status : String)
    (err : Option String) (now : ℕ) : WebhookResponse × MessagingDb :=
  let internal_status := status_mapping (lower status)
  match db.messages.find? (fun m => m.message_id == some mid) with
  | none => (.error "Message not found", db)
  | some message =>
      let message' : MessageRec :=
        { message with
          status := internal_status
          delivered_at := if internal_status = .sent then some now else none
          error_message := if internal_status = .failed then err else none }
      let db1 := update_message db message'
      match message.campaign_id.bind
          (fun cid => db1.campaigns.find? (fun c => c.id == cid)) with
      | none => (.success "Status updated", db1)
      | some campaign =>
          let sent_count := sent_message_count db1 campaign.id
          let failed_count := failed_message_count db1 campaign.id
          let total_messages := total_message_count db1 campaign.id
          let campaign' : CampaignRec :=
            if sent_count + failed_count ≥ total_messages then
              { campaign with
                delivered_count := sent_count
                failed_count := failed_count
                status := .sent
                sent_at := some now }
            else
              { campaign with
                delivered_count := sent_count
                failed_count := failed_count }
          (.success "Status updated", update_campaign db1 campaign')

/-! ## ABTestingService — data model and discrete operations
(`app/services/ab_testing_service.py`) -/

/-- A row of `contacts` as far as the A/B service reads it. -/
structure Contact where
  id : ℕ
  user_id : ℕ
  deriving DecidableEq, Repr

/-- A row of `ab_test_campaigns` (`app/models/ab_testing.py` 20-63).
Column values the code ever writes are exact rationals, so `Float`
columns are modelled by `ℚ`.  The cached `statistical_significance`
column is carried but the ℝ-valued p-value `analyze_ab_test` caches into
it is tracked through the analysis result instead (see
`analyze_ab_test` below). -/
structure ABTestCampaign where
  id : ℕ
  user_id : ℕ
  name : String
  test_type : TestType
  status : TestStatus
  traffic_split : ℚ
  test_duration_days : ℕ
  minimum_sample_size : ℕ
  confidence_level : ℚ
  variant_a_recipients : ℕ
  variant_b_recipients : ℕ
  variant_a_delivered : ℕ
  variant_b_delivered : ℕ
  variant_a_opened : ℕ
  variant_b_opened : ℕ
  variant_a_clicked : ℕ
  variant_b_clicked : ℕ
  variant_a_replied : ℕ
  variant_b_replied : ℕ
  variant_a_conversion_rate : ℚ
  variant_b_conversion_rate : ℚ
  statistical_significance : ℚ
  winner_variant : Option String
  started_at : Option ℕ
  completed_at : Option ℕ
  deriving DecidableEq, Repr

/-- A row of `ab_test_variants` (`app/models/ab_testing.py` 65-92). -/
structure ABTestVariantRec where
  id : ℕ
  campaign_id : ℕ
  variant_name : String
  variant_type : TestType
  message_content : Option String
  sender_id : Option String
  send_time : Option ℕ
  subject_line : Option String
  recipients_count : ℕ
  delivered_count : ℕ
  opened_count : ℕ
  clicked_count : ℕ
  replied_count : ℕ
  deriving DecidableEq, Repr

/-- A row of `ab_test_recipients` as created by `start_ab_test`
(the delivery/open/click/reply flags all start false). -/
structure ABTestRecipientRec where
  campaign_id : ℕ
  variant_id : ℕ
  contact_id : ℕ
  deriving DecidableEq, Repr

/-- The committed state visible to `ABTestingService`. -/
structure ABTestDb where
  campaigns : List ABTestCampaign
  variants : List ABTestVariantRec
  recipients : List ABTestRecipientRec
  contacts : List Contact
  deriving DecidableEq, Repr

/-- One entry of `test_data["variants"]` as validated by the
`ABTestVariantCreate` schema (`app/schemas/ab_testing.py` 6-15). -/
structure VariantData where
  variant_name : String
  message_content : Option String
  sender_id : Option String
  send_time : Option ℕ
  subject_line : Option String
  deriving DecidableEq, Repr

/-- The payload accepted by `create_ab_test`, i.e. the field set of
`ABTestCampaignCreate` (`app/schemas/ab_testing.py` 38-48): the schema
declares plain types with defaults (`traffic_split: float = 0.5`,
`variants: List[ABTestVariantCreate]`) and has no validator on the
split value or on the number of variants. -/
structure TestData where
  name : String
  description : Option String
  test_type : TestType
  traffic_split : ℚ
  test_duration_days : ℕ
  minimum_sample_size : ℕ
  confidence_level : ℚ
  variants : List VariantData
  deriving DecidableEq, Repr

/-- Response of `create_ab_test`. -/
inductive CreateResult where
  | success (campaign_id : ℕ)
  | error (msg : String)
  deriving DecidableEq, Repr

/-- `ABTestingService.create_ab_test` (ab_testing_service.py 20-59):
builds the `ABTestCampaign` row in `DRAFT` status, commits, then adds
one `ABTestVariant` row per entry of `test_data["variants"]` and commits
again.  There is no validation of the variant count or of the traffic
split.  Primary keys are assigned by the database; the model takes the
fresh campaign id and the first fresh variant id as parameters.
Database-level failures (the `except` branch) are outside the model. -/
def create_ab_test (db : ABTestDb) (user_id : ℕ) (test_data : TestData)
    (campaign_id first_variant_id : ℕ) : CreateResult × ABTestDb :=
  let campaign : ABTestCampaign :=
    { id := campaign_id
      user_id := user_id
      name := test_data.name
      test_type := test_data.test_type
      status := .draft
      traffic_split := test_data.traffic_split
      test_duration_days := test_data.test_duration_days
      minimum_sample_size := test_data.minimum_sample_size
      confidence_level := test_data.confidence_level
      variant_a_recipients := 0
      variant_b_recipients := 0
      variant_a_delivered := 0
      variant_b_delivered := 0
      variant_a_opened := 0
      variant_b_opened := 0
      variant_a_clicked := 0
      variant_b_clicked := 0
      variant_a_replied := 0
      variant_b_replied := 0
      variant_a_conversion_rate := 0
      variant_b_conversion_rate := 0
      statistical_significance := 0
      winner_variant := none
      started_at := none
      completed_at := none }
  let newVariants := test_data.variants.enum.map fun iv =>
    { id := first_variant_id + iv.1
      campaign_id := campaign_id
      variant_name := iv.2.variant_name
      variant_type := test_data.test_type
      message_content := iv.2.message_content
      sender_id := iv.2.sender_id
      send_time := iv.2.send_time
      subject_line := iv.2.subject_line
      recipients_count := 0
      delivered_count := 0
      opened_count := 0
      clicked_count := 0
      replied_count := 0 : ABTestVariantRec }
  (.success campaign_id,
    { db with
      campaigns := db.campaigns ++ [campaign]
      variants := db.variants ++ newVariants })

/-- The error strings `start_ab_test` can return, with their data.
`notEnoughContacts needed actual` abbreviates
"Not enough contacts. Need {needed}, have {actual}". -/
inductive StartError where
  | campaignNotFound
  | notDraft
  | notEnoughContacts (needed actual : ℕ)
  | variantsNotFound
  deriving DecidableEq, Repr

/-- Response of `start_ab_test`. -/
inductive StartResult where
  | ok
  | error (e : StartError)
  deriving DecidableEq, Repr

/-- `db.query(Contact).filter(Contact.user_id == user_id).all()`
(ab_testing_service.py 80-82). -/
def user_contacts (db : ABTestDb) (user_id : ℕ) : List Contact :=
  db.contacts.filter fun ct => ct.user_id == user_id

/-- Lines 91-93 of `start_ab_test`:
`split_point = int(len(contacts) * campaign.traffic_split)` followed by
the two slices.  `int()` truncates toward zero, which agrees with the
floor for the non-negative products produced by a split ratio in
`[0, 1]`. -/
def variant_split (contacts : List Contact) (split : ℚ) :
    List Contact × List Contact :=
  let split_point := (⌊(contacts.length : ℚ) * split⌋).toNat
  (contacts.take split_point, contacts.drop split_point)

/-- `ABTestingService.start_ab_test` (ab_testing_service.py 61-137).
`random.shuffle(contacts)` permutes the contact list in place; the
randomness source is abstracted as the function `shuffle`, which the
theorems constrain to be a permutation.  The ORM mutation of lines
76-77 (status to `RUNNING`, `started_at`) is made before the
sample-size check, but the only commit of the function is on the
success path (line 131); on every error return the request's session is
closed uncommitted and the mutation is rolled back, so the committed
state is returned unchanged. -/
def start_ab_test (db : ABTestDb) (campaign_id user_id : ℕ)
    (shuffle : List Contact → List Contact) (now : ℕ) :
    StartResult × ABTestDb :=
  match db.campaigns.find? (fun c => c.id == campaign_id && c.user_id == user_id) with
  | none => (.error .campaignNotFound, db)
  | some campaign =>
    if campaign.status ≠ TestStatus.draft then (.error .notDraft, db)
    else
      let campaign1 := { campaign with status := TestStatus.running, started_at := some now }
      let contacts := user_contacts db user_id
      if contacts.length < campaign.minimum_sample_size then
        (.error (.notEnoughContacts campaign.minimum_sample_size contacts.length), db)
      else
        let shuffled := shuffle contacts
        let split := variant_split shuffled campaign.traffic_split
        let variant_a_contacts := split.1
        let variant_b_contacts := split.2
        let campaign_variants := db.variants.filter fun v => v.campaign_id == campaign_id
        match campaign_variants.find? (fun v => v.variant_name == "A"),
              campaign_variants.find? (fun v => v.variant_name == "B") with
        | some variant_a, some variant_b =>
            let newRecipients : List ABTestRecipientRec :=
              variant_a_contacts.map (fun ct =>
                { campaign_id := campaign_id, variant_id := variant_a.id, contact_id := ct.id }) ++
              variant_b_contacts.map (fun ct =>
                { campaign_id := campaign_id, variant_id := variant_b.id, contact_id := ct.id })
            let campaign2 := { campaign1 with
              variant_a_recipients := variant_a_contacts.length
              variant_b_recipients := variant_b_contacts.length }
            let variant_a' := { variant_a with recipients_count := variant_a_contacts.length }
            let variant_b' := { variant_b with recipients_count := variant_b_contacts.length }
            (.ok,
              { db with
                campaigns := db.campaigns.map fun c =>
                  if c.id == campaign.id then campaign2 else c
                variants := db.variants.map fun v =>
                  if v.id == variant_a.id then variant_a'
                  else if v.id == variant_b.id then variant_b' else v
                recipients := db.recipients ++ newRecipients })
        | _, _ => (.error .variantsNotFound, db)

/-- The counter keys of `metrics_data` that `update_ab_test_metrics`
can set on the campaign via `setattr` (a key absent from the dict is
`none`). -/
structure MetricsData where
  variant_a_recipients : Option ℕ := none
  variant_b_recipients : Option ℕ := none
  variant_a_delivered : Option ℕ := none
  variant_b_delivered : Option ℕ := none
  variant_a_opened : Option ℕ := none
  variant_b_opened : Option ℕ := none
  variant_a_clicked : Option ℕ := none
  variant_b_clicked : Option ℕ := none
  variant_a_replied : Option ℕ := none
  variant_b_replied : Option ℕ := none
  deriving DecidableEq, Repr

/-- The `setattr` loop of `update_ab_test_metrics` (lines 150-152):
every supplied value overwrites the current one unconditionally. -/
def apply_metrics (c : ABTestCampaign) (m : MetricsData) : ABTestCampaign :=
  { c with
    variant_a_recipients := m.variant_a_recipients.getD c.variant_a_recipients
    variant_b_recipients := m.variant_b_recipients.getD c.variant_b_recipients
    variant_a_delivered := m.variant_a_delivered.getD c.variant_a_delivered
    variant_b_delivered := m.variant_b_delivered.getD c.variant_b_delivered
    variant_a_opened := m.variant_a_opened.getD c.variant_a_opened
    variant_b_opened := m.variant_b_opened.getD c.variant_b_opened
    variant_a_clicked := m.variant_a_clicked.getD c.variant_a_clicked
    variant_b_clicked := m.variant_b_clicked.getD c.variant_b_clicked
    variant_a_replied := m.variant_a_replied.getD c.variant_a_replied
    variant_b_replied := m.variant_b_replied.getD c.variant_b_replied }

/-- Response of `update_ab_test_metrics`. -/
inductive UpdateResult where
  | ok
  | error (msg : String)
  deriving DecidableEq, Repr

/-- `ABTestingService.update_ab_test_metrics` (ab_testing_service.py
139-167): looks the campaign up by id only, overwrites the supplied
counters, recomputes the two conversion rates (`opened / recipients`)
when the recipients counter is positive, and commits. -/
def update_ab_test_metrics (db : ABTestDb) (campaign_id : ℕ) (m : MetricsData) :
    UpdateResult × ABTestDb :=
  match db.campaigns.find? (fun c => c.id == campaign_id) with
  | none => (.error "Campaign not found", db)
  | some campaign =>
      let c1 := apply_metrics campaign m
      let c2 :=
        if c1.variant_a_recipients > 0 then
          { c1 with variant_a_conversion_rate :=
              (c1.variant_a_opened : ℚ) / c1.variant_a_recipients }
        else c1
      let c3 :=
        if c2.variant_b_recipients > 0 then
          { c2 with variant_b_conversion_rate :=
              (c2.variant_b_opened : ℚ) / c2.variant_b_recipients }
        else c2
      (.ok,
        { db with campaigns := db.campaigns.map fun x =>
            if x.id == campaign_id then c3 else x })

/-! ## ABTestEngine analysis (`analyze_ab_test`, ab_testing_service.py 169-298)

Python `float` arithmetic is idealised as exact real arithmetic.  A
Python expression that raises (`ZeroDivisionError` on float division by
zero, `ValueError` from `math.sqrt` / `math.asin` outside their
domains) is modelled by an explicit `AnalyzeError` branch placed at the
same evaluation point; the service's blanket `except Exception`
(lines 282-284) turns the raised error into a `success: False` response
before the `ABTestResult` snapshot is added, so a raising run persists
nothing. -/

noncomputable section

open MeasureTheory Real

open scoped Classical

/-- The Gauss error function — the mathematical function computed by the
Python standard library's `math.erf`, which `_normal_cdf` calls. -/
def erf (x : ℝ) : ℝ :=
  2 / Real.sqrt π * ∫ t in (0:ℝ)..x, Real.exp (-(t ^ 2))

/-- `ABTestingService._normal_cdf` (lines 286-288):
`0.5 * (1 + math.erf(x / math.sqrt(2)))`. -/
def normal_cdf (x : ℝ) : ℝ := 0.5 * (1 + erf (x / Real.sqrt 2))

/-- `rate_a = variant_a_conversions / variant_a_recipients` (line 189). -/
def rate_a (c : ABTestCampaign) : ℝ :=
  (c.variant_a_opened : ℝ) / (c.variant_a_recipients : ℝ)

/-- `rate_b = variant_b_conversions / variant_b_recipients` (line 190). -/
def rate_b (c : ABTestCampaign) : ℝ :=
  (c.variant_b_opened : ℝ) / (c.variant_b_recipients : ℝ)

/-- Pooled proportion (line 197). -/
def p_pooled (c : ABTestCampaign) : ℝ :=
  ((c.variant_a_opened : ℝ) + (c.variant_b_opened : ℝ)) /
    ((c.variant_a_recipients : ℝ) + (c.variant_b_recipients : ℝ))

/-- The argument passed to `math.sqrt` on line 200:
`p_pooled * (1 - p_pooled) * (1/n1 + 1/n2)`. -/
def se_arg (c : ABTestCampaign) : ℝ :=
  p_pooled c * (1 - p_pooled c) *
    (1 / (c.variant_a_recipients : ℝ) + 1 / (c.variant_b_recipients : ℝ))

/-- `se = math.sqrt(p_pooled * (1 - p_pooled) * (1/n1 + 1/n2))` (line 200). -/
def standard_error (c : ABTestCampaign) : ℝ := Real.sqrt (se_arg c)

/-- `z_score = (p2 - p1) / se if se > 0 else 0` (line 203). -/
def z_score (c : ABTestCampaign) : ℝ :=
  if standard_error c > 0 then (rate_b c - rate_a c) / standard_error c else 0

/-- `p_value = 2 * (1 - self._normal_cdf(abs(z_score)))` (line 206). -/
def p_value (c : ABTestCampaign) : ℝ := 2 * (1 - normal_cdf |z_score c|)

/-- Cohen's h, `2 * (math.asin(math.sqrt(p2)) - math.asin(math.sqrt(p1)))`
(line 212). -/
def effect_size (c : ABTestCampaign) : ℝ :=
  2 * (Real.arcsin (Real.sqrt (rate_b c)) - Real.arcsin (Real.sqrt (rate_a c)))

/-- The analysis payload of a successful `analyze_ab_test` response,
which is also the content of the `ABTestResult` snapshot persisted by
the same call (lines 235-258 and 268-280). -/
structure Analysis where
  variant_a_rate : ℝ
  variant_b_rate : ℝ
  p_value : ℝ
  effect_size : ℝ
  ci_lower : ℝ
  ci_upper : ℝ
  winner : Option String
  improvement_percentage : ℝ
  sample_size : ℕ

/-- How an `analyze_ab_test` call can fail.  `insufficientData` is the
explicit early return of line 186; the other two stand for a Python
exception raised mid-computation and caught by the blanket handler. -/
inductive AnalyzeError where
  | insufficientData
  | mathDomainError
  | zeroDivisionError
  deriving DecidableEq, Repr

/-- Response of `analyze_ab_test` (the campaign-not-found branch is
outside the model: the campaign row is passed directly). -/
inductive AnalyzeResult where
  | success (a : Analysis)
  | failure (e : AnalyzeError)

/-- The `Analysis` record assembled on a successful run, with the
winner/improvement pair determined by the branch taken (lines 220-232);
`margin_error = 1.96 * se` is hardcoded (line 216). -/
def mkAnalysis (c : ABTestCampaign) (winner : Option String)
    (improvement : ℝ) : Analysis :=
  { variant_a_rate := rate_a c
    variant_b_rate := rate_b c
    p_value := p_value c
    effect_size := effect_size c
    ci_lower := rate_b c - rate_a c - 1.96 * standard_error c
    ci_upper := rate_b c - rate_a c + 1.96 * standard_error c
    winner := winner
    improvement_percentage := improvement
    sample_size := c.variant_a_recipients + c.variant_b_recipients }

/-- `ABTestingService.analyze_ab_test` (lines 169-284).  The raising
points, in Python evaluation order: `math.sqrt` on a negative argument
(only possible when a conversion count exceeds its recipient count),
`math.asin` on an argument above 1 while computing the effect size
(line 212, evaluated before the winner branch), and the float division
by a zero conversion rate inside the winner branch (lines 227/230).
The conversion rates themselves are safe: both recipient counts are
non-zero past the line-185 guard. -/
def analyze_ab_test (c : ABTestCampaign) : AnalyzeResult :=
  if c.variant_a_recipients = 0 ∨ c.variant_b_recipients = 0 then
    .failure .insufficientData
  else if se_arg c < 0 then
    .failure .mathDomainError
  else if 1 < Real.sqrt (rate_b c) ∨ 1 < Real.sqrt (rate_a c) then
    .failure .mathDomainError
  else if p_value c < 1 - (c.confidence_level : ℝ) then
    if rate_b c > rate_a c then
      if rate_a c = 0 then .failure .zeroDivisionError
      else .success (mkAnalysis c (some "B") ((rate_b c - rate_a c) / rate_a c * 100))
    else if rate_a c > rate_b c then
      if rate_b c = 0 then .failure .zeroDivisionError
      else .success (mkAnalysis c (some "A") ((rate_a c - rate_b c) / rate_b c * 100))
    else .success (mkAnalysis c none 0)
  else .success (mkAnalysis c (some "inconclusive") 0)

/-- The `ABTestResult` rows added to the session by one
`analyze_ab_test` call: `db.add(result)` (line 260) and the final
`db.commit()` are reached only on the success path; when an exception
is raised first, the blanket handler returns a failure response and the
snapshot is never created. -/
def analysis_results_added (c : ABTestCampaign) : List Analysis :=
  match analyze_ab_test c with
  | .success a => [a]
  | .failure _ => []

end

/-! ## Concrete instances used in the scenario theorems and witnesses -/

/-- A campaign message awaiting its delivery callback. -/
def exampleMessage : MessageRec :=
  { id := 1, campaign_id := some 1, message_id := some "SM1",
    status := .pending, delivered_at := none, error_message := none }

/-- The campaign owning `exampleMessage`, mid-send. -/
def exampleCampaignRec : CampaignRec :=
  { id := 1, status := .sending, delivered_count := 0, failed_count := 0,
    sent_at := none }

/-- A messaging state with a single in-flight campaign message, whose
"delivered" callback is the campaign's last outstanding report. -/
def exampleMessagingDb : MessagingDb :=
  { messages := [exampleMessage], campaigns := [exampleCampaignRec] }

/-- The "delivered" callback for `exampleMessage`. -/
def examplePayload : WebhookPayload :=
  { message_id := some "SM1", status := some "delivered", error_message := none }

/-- A draft A/B campaign used by the lifecycle scenarios: 50/50 split,
95% confidence, minimum sample size 100. -/
def exampleCampaign : ABTestCampaign :=
  { id := 1, user_id := 7, name := "subject test", test_type := .message_content,
    status := .draft, traffic_split := 1/2, test_duration_days := 7,
    minimum_sample_size := 100, confidence_level := 19/20,
    variant_a_recipients := 0, variant_b_recipients := 0,
    variant_a_delivered := 0, variant_b_delivered := 0,
    variant_a_opened := 0, variant_b_opened := 0,
    variant_a_clicked := 0, variant_b_clicked := 0,
    variant_a_replied := 0, variant_b_replied := 0,
    variant_a_conversion_rate := 0, variant_b_conversion_rate := 0,
    statistical_significance := 0, winner_variant := none,
    started_at := none, completed_at := none }

/-- The campaign's two variants. -/
def exampleVariantA : ABTestVariantRec :=
  { id := 1, campaign_id := 1, variant_name := "A", variant_type := .message_content,
    message_content := some "hello", sender_id := none, send_time := none,
    subject_line := none, recipients_count := 0, delivered_count := 0,
    opened_count := 0, clicked_count := 0, replied_count := 0 }

def exampleVariantB : ABTestVariantRec :=
  { exampleVariantA with
    id := 2
    variant_name := "B"
    message_content := some "hi there" }

/-- 200 contacts owned by user 7. -/
def exampleContacts200 : List Contact :=
  (List.range 200).map fun i => { id := i, user_id := 7 }

/-- State for the 200-contact start/analyze scenario. -/
def exampleDb200 : ABTestDb :=
  { campaigns := [exampleCampaign], variants := [exampleVariantA, exampleVariantB],
    recipients := [], contacts := exampleContacts200 }

/-- State for the underpopulated-start scenario: only 40 contacts. -/
def exampleDb40 : ABTestDb :=
  { campaigns := [exampleCampaign], variants := [exampleVariantA, exampleVariantB],
    recipients := [],
    contacts := (List.range 40).map fun i => { id := i, user_id := 7 } }

/-- A running campaign with 50 recipients per variant and no recorded
conversions. -/
def exampleRunningZeroOpens : ABTestCampaign :=
  { exampleCampaign with
    status := .running
    variant_a_recipients := 50
    variant_b_recipients := 50
    started_at := some 0 }

/-- A running campaign with 100 recipients per variant, no variant-A
conversions and 35 variant-B conversions. -/
def exampleRunningZeroRateA : ABTestCampaign :=
  { exampleCampaign with
    status := .running
    variant_a_recipients := 100
    variant_b_recipients := 100
    variant_b_opened := 35
    started_at := some 0 }

/-- A running campaign that has already recorded 5 variant-A opens. -/
def exampleRunningFiveOpens : ABTestCampaign :=
  { exampleCampaign with
    status := .running
    variant_a_recipients := 50
    variant_b_recipients := 50
    variant_a_opened := 5
    started_at := some 0 }

/-- State holding `exampleRunningFiveOpens`. -/
def exampleDbFiveOpens : ABTestDb :=
  { campaigns := [exampleRunningFiveOpens], variants := [], recipients := [],
    contacts := [] }

/-- A metrics payload reporting fewer variant-A opens than already
recorded. -/
def exampleMetricsThreeOpens : MetricsData := { variant_a_opened := some 3 }

/-- A test specification with three variants and a traffic split of 1.5
— invalid per the documented contract, accepted by the code. -/
def exampleBadTestData : TestData :=
  { name := "bad", description := none, test_type := .message_content,
    traffic_split := 3/2, test_duration_days := 7, minimum_sample_size := 100,
    confidence_level := 19/20,
    variants :=
      [ { variant_name := "A", message_content := some "a", sender_id := none,
          send_time := none, subject_line := none },
        { variant_name := "B", message_content := some "b", sender_id := none,
          send_time := none, subject_line := none },
        { variant_name := "C", message_content := some "c", sender_id := none,
          send_time := none, subject_line := none } ] }

/-- An empty service state. -/
def emptyABTestDb : ABTestDb :=
  { campaigns := [], variants := [], recipients := [], contacts := [] }

/-- A batch of ten messages for the bulk-send scenario. -/
def exampleBulkMessages : List BulkMessage :=
  (List.range 10).map fun i => { phone := toString i, message := "hello", sender_id := none }

/-- A provider oracle under which message #7 (phone "6", the seventh
message) raises a timeout and every other dispatch succeeds. -/
def exampleSendOracle : BulkMessage → SendOutcome := fun m =>
  if m.phone = "6" then .exn "timeout"
  else .ok { success := true, message_id := some ("id-" ++ m.phone),
             status := "sent", error := none }

section AnalysisLemmas

open MeasureTheory Real Set Filter

/-- The Gaussian integrand is integrable on every right tail. -/
lemma integrableOn_exp_neg_sq (c : ℝ) :
    IntegrableOn (fun t : ℝ => Real.exp (-(t ^ 2))) (Ioi c) := by
  have h := integrable_exp_neg_mul_sq (b := (1:ℝ)) one_pos
  simpa using h.integrableOn

/-- The function `t ↦ t·e^{-t²}` is integrable on every right tail. -/
lemma integrableOn_mul_exp_neg_sq (c : ℝ) :
    IntegrableOn (fun t : ℝ => t * Real.exp (-(t ^ 2))) (Ioi c) := by
  have h := integrable_mul_exp_neg_mul_sq (b := (1:ℝ)) one_pos
  simpa using h.integrableOn

/-- The Gaussian integral over the positive half-line. -/
lemma integral_exp_neg_sq_Ioi_zero :
    ∫ t in Ioi (0:ℝ), Real.exp (-(t ^ 2)) = Real.sqrt π / 2 := by
  have h := integral_gaussian_Ioi 1
  simpa using h

/-- Closed form of the tail integral of `t·e^{-t²}`. -/
lemma integral_mul_exp_neg_sq_Ioi (c : ℝ) :
    ∫ t in Ioi c, t * Real.exp (-(t ^ 2)) = Real.exp (-(c ^ 2)) / 2 := by
  have hderiv : ∀ x ∈ Ici c,
      HasDerivAt (fun t : ℝ => -(Real.exp (-(t ^ 2)) / 2))
        (x * Real.exp (-(x ^ 2))) x := by
    intro x _
    have h1 : HasDerivAt (fun t : ℝ => -(t ^ 2)) (-(2 * x)) x := by
      simpa using (hasDerivAt_pow 2 x).neg
    have h2 := (h1.exp.div_const 2).neg
    convert h2 using 1
    ring
  have htend : Tendsto (fun t : ℝ => -(Real.exp (-(t ^ 2)) / 2)) atTop (nhds 0) := by
    have h1 : Tendsto (fun t : ℝ => t ^ 2) atTop atTop :=
      tendsto_pow_atTop two_ne_zero
    have h2 : Tendsto (fun t : ℝ => -(t ^ 2)) atTop atBot :=
      tendsto_neg_atTop_atBot.comp h1
    have h3 : Tendsto (fun t : ℝ => Real.exp (-(t ^ 2))) atTop (nhds 0) :=
      Real.tendsto_exp_atBot.comp h2
    simpa using (h3.div_const 2).neg
  have h := integral_Ioi_of_hasDerivAt_of_tendsto' hderiv
    (integrableOn_mul_exp_neg_sq c) htend
  rw [h]
  ring

/-- Gaussian tail estimate: for `y > 0`,
`∫_y^∞ e^{-t²} ≤ e^{-y²}/(2y)`. -/
lemma integral_exp_neg_sq_Ioi_le (y : ℝ) (hy : 0 < y) :
    ∫ t in Ioi y, Real.exp (-(t ^ 2)) ≤ Real.exp (-(y ^ 2)) / (2 * y) := by
  have hint2 : IntegrableOn
      (fun t : ℝ => (1 / y) * (t * Real.exp (-(t ^ 2)))) (Ioi y) :=
    (integrableOn_mul_exp_neg_sq y).const_mul _
  have hmono : ∀ t ∈ Ioi y,
      Real.exp (-(t ^ 2)) ≤ (1 / y) * (t * Real.exp (-(t ^ 2))) := by
    intro t ht
    rw [mem_Ioi] at ht
    have h1 : 1 ≤ t / y := (one_le_div hy).2 ht.le
    have h2 : (0:ℝ) < Real.exp (-(t ^ 2)) := Real.exp_pos _
    calc Real.exp (-(t ^ 2)) = 1 * Real.exp (-(t ^ 2)) := (one_mul _).symm
      _ ≤ (t / y) * Real.exp (-(t ^ 2)) := mul_le_mul_of_nonneg_right h1 h2.le
      _ = (1 / y) * (t * Real.exp (-(t ^ 2))) := by ring
  calc ∫ t in Ioi y, Real.exp (-(t ^ 2))
      ≤ ∫ t in Ioi y, (1 / y) * (t * Real.exp (-(t ^ 2))) :=
        setIntegral_mono_on (integrableOn_exp_neg_sq y) hint2
          measurableSet_Ioi hmono
    _ = (1 / y) * ∫ t in Ioi y, t * Real.exp (-(t ^ 2)) :=
        integral_mul_left _ _
    _ = Real.exp (-(y ^ 2)) / (2 * y) := by
        rw [integral_mul_exp_neg_sq_Ioi, one_div, inv_mul_eq_div, div_div]

/-- Splitting the positive half-line at `y`. -/
lemma integral_exp_neg_sq_Ioc (y : ℝ) (hy : 0 ≤ y) :
    ∫ t in Ioc (0:ℝ) y, Real.exp (-(t ^ 2)) =
      Real.sqrt π / 2 - ∫ t in Ioi y, Real.exp (-(t ^ 2)) := by
  have hu : Ioc (0:ℝ) y ∪ Ioi y = Ioi 0 := Ioc_union_Ioi_eq_Ioi hy
  have hd : Disjoint (Ioc (0:ℝ) y) (Ioi y) := Ioc_disjoint_Ioi le_rfl
  have h1 : IntegrableOn (fun t : ℝ => Real.exp (-(t ^ 2))) (Ioc 0 y) :=
    (integrableOn_exp_neg_sq 0).mono_set Ioc_subset_Ioi_self
  have h := setIntegral_union hd measurableSet_Ioi h1 (integrableOn_exp_neg_sq y)
  rw [hu, integral_exp_neg_sq_Ioi_zero] at h
  linarith

/-- Lower bound on the error function: for `y > 0`,
`1 - erf y ≤ e^{-y²}/(y·√π)`. -/
lemma one_sub_erf_le (y : ℝ) (hy : 0 < y) :
    1 - erf y ≤ Real.exp (-(y ^ 2)) / (y * Real.sqrt π) := by
  have hπ : (0:ℝ) < Real.sqrt π := Real.sqrt_pos.2 Real.pi_pos
  have hi : ∫ t in (0:ℝ)..y, Real.exp (-(t ^ 2)) =
      ∫ t in Ioc (0:ℝ) y, Real.exp (-(t ^ 2)) :=
    intervalIntegral.integral_of_le hy.le
  have htail := integral_exp_neg_sq_Ioi_le y hy
  unfold erf
  rw [hi, integral_exp_neg_sq_Ioc y hy.le]
  have key : 1 - 2 / Real.sqrt π *
      (Real.sqrt π / 2 - ∫ t in Ioi y, Real.exp (-(t ^ 2))) =
      2 / Real.sqrt π * ∫ t in Ioi y, Real.exp (-(t ^ 2)) := by
    field_simp
    ring
  rw [key]
  calc 2 / Real.sqrt π * ∫ t in Ioi y, Real.exp (-(t ^ 2))
      ≤ 2 / Real.sqrt π * (Real.exp (-(y ^ 2)) / (2 * y)) :=
        mul_le_mul_of_nonneg_left htail (by positivity)
    _ = Real.exp (-(y ^ 2)) / (y * Real.sqrt π) := by
        field_simp
        ring

/-- The p-value shape `1 - erf (√q)` is below `ε` as soon as the tail
estimate is. -/
lemma one_sub_erf_sqrt_lt {q ε : ℝ} (hq : 0 < q)
    (h : Real.exp (-q) / (Real.sqrt q * Real.sqrt π) < ε) :
    1 - erf (Real.sqrt q) < ε := by
  have hy : (0:ℝ) < Real.sqrt q := Real.sqrt_pos.2 hq
  have hb := one_sub_erf_le (Real.sqrt q) hy
  rw [Real.sq_sqrt hq.le] at hb
  linarith

/-- Numeric form of the tail estimate: rational bounds `r² < q`,
`s² < π` and `e ≤ exp q` reduce it to a rational inequality. -/
lemma gauss_tail_bound {q r s e ε : ℝ} (hr : 0 < r) (hs : 0 < s)
    (hrq : r ^ 2 < q) (hsp : s ^ 2 < π) (hexp : e ≤ Real.exp q) (he : 0 < e)
    (hfinal : 1 / (e * (r * s)) < ε) :
    Real.exp (-q) / (Real.sqrt q * Real.sqrt π) < ε := by
  have h1 : r < Real.sqrt q := Real.lt_sqrt_of_sq_lt hrq
  have h2 : s < Real.sqrt π := Real.lt_sqrt_of_sq_lt hsp
  have hD : r * s < Real.sqrt q * Real.sqrt π :=
    mul_lt_mul h1 h2.le hs (Real.sqrt_nonneg _)
  have hDpos : (0:ℝ) < r * s := mul_pos hr hs
  have hN : Real.exp (-q) ≤ 1 / e := by
    rw [Real.exp_neg, inv_eq_one_div]
    exact one_div_le_one_div_of_le he hexp
  calc Real.exp (-q) / (Real.sqrt q * Real.sqrt π)
      ≤ (1 / e) / (Real.sqrt q * Real.sqrt π) :=
        (div_le_div_iff_of_pos_right (lt_trans hDpos hD)).2 hN
    _ < (1 / e) / (r * s) :=
        div_lt_div_of_pos_left (by positivity) hDpos hD
    _ = 1 / (e * (r * s)) := by rw [div_div]
    _ < ε := hfinal

/-- `(1 + q/4)⁴ ≤ exp q` for non-negative `q`. -/
lemma quarter_pow_le_exp {q : ℝ} (hq : 0 ≤ q) : (1 + q / 4) ^ 4 ≤ Real.exp q := by
  have h : 1 + q / 4 ≤ Real.exp (q / 4) := by
    have := Real.add_one_le_exp (q / 4)
    linarith
  calc (1 + q / 4) ^ 4 ≤ Real.exp (q / 4) ^ 4 :=
        pow_le_pow_left₀ (by linarith) h 4
    _ = Real.exp ((4:ℕ) * (q / 4)) := (Real.exp_nat_mul _ 4).symm
    _ = Real.exp q := by
        push_cast
        ring_nf

/-- `erf 0 = 0`. -/
lemma erf_zero : erf 0 = 0 := by
  unfold erf
  rw [intervalIntegral.integral_same, mul_zero]

/-- When the pooled variance term is positive and B's rate is at least
A's, the two-sided p-value computed by the service equals
`1 - erf (√(diff²/(2·se_arg)))`. -/
lemma p_value_eq_one_sub_erf (c : ABTestCampaign) (h : 0 < se_arg c)
    (hd : 0 ≤ rate_b c - rate_a c) :
    p_value c =
      1 - erf (Real.sqrt ((rate_b c - rate_a c) ^ 2 / (2 * se_arg c))) := by
  have hsp : 0 < standard_error c := Real.sqrt_pos.2 h
  have hz : z_score c = (rate_b c - rate_a c) / standard_error c := if_pos hsp
  have hznn : 0 ≤ z_score c := by
    rw [hz]
    exact div_nonneg hd hsp.le
  have harg : z_score c / Real.sqrt 2 =
      Real.sqrt ((rate_b c - rate_a c) ^ 2 / (2 * se_arg c)) := by
    rw [Real.sqrt_div (sq_nonneg _), Real.sqrt_sq hd,
      Real.sqrt_mul (by norm_num : (0:ℝ) ≤ 2), hz]
    unfold standard_error
    rw [div_div, mul_comm (Real.sqrt (se_arg c))]
  unfold p_value normal_cdf
  rw [abs_of_nonneg hznn, harg]
  ring

end AnalysisLemmas

/-! ## Helper lemmas -/

/-- Batching is invisible in the aggregate result: `send_bulk_sms` is
the map of the per-message outcome function over the input list. -/
lemma send_bulk_sms_eq_map (send : BulkMessage → SendOutcome)
    (msgs : List BulkMessage) :
    send_bulk_sms send msgs = msgs.map (bulkOutcomeOf send) := by
  induction msgs using send_bulk_sms.induct send with
  | case1 => rw [send_bulk_sms]; rfl
  | case2 m rest ih =>
      rw [send_bulk_sms, ih, ← List.map_append, List.take_append_drop]

/-- A supplied `Option` bound transfers to `Option.getD`. -/
lemma le_getD {o : Option ℕ} {d : ℕ} (h : ∀ v ∈ o, d ≤ v) : d ≤ o.getD d := by
  cases o with
  | none => exact le_refl d
  | some v => exact h v rfl

/-- Bounds for `some` values, for discharging `le_getD`-style
hypotheses at concrete inputs. -/
lemma forall_mem_some_le {d v : ℕ} (h : d ≤ v) :
    ∀ w ∈ (some v : Option ℕ), d ≤ w := by
  intro w hw
  rw [Option.mem_def] at hw
  injection hw with h'
  omega

/-- Vacuous bound for an absent metrics key. -/
lemma forall_mem_none_le {d : ℕ} : ∀ w ∈ (none : Option ℕ), d ≤ w := by
  intro w hw
  simp at hw

/-- The split point `int(len(contacts) * traffic_split)` never exceeds
the population size when the split ratio is at most 1. -/
lemma floor_mul_toNat_le (n : ℕ) (s : ℚ) (h1 : s ≤ 1) :
    (⌊(n : ℚ) * s⌋).toNat ≤ n := by
  have h2 : (n : ℚ) * s ≤ (n : ℚ) := by
    calc (n : ℚ) * s ≤ (n : ℚ) * 1 :=
          mul_le_mul_of_nonneg_left h1 (by positivity)
      _ = (n : ℚ) := mul_one _
  have h3 : ⌊(n : ℚ) * s⌋ ≤ ⌊((n : ℕ) : ℚ)⌋ := Int.floor_le_floor h2
  rw [Int.floor_natCast] at h3
  omega

/-- Evaluation of a concrete floor: `⌊q⌋.toNat = n` whenever
`n ≤ q < n + 1`. -/
lemma floor_toNat_eq (q : ℚ) (n : ℕ) (hle : (n : ℚ) ≤ q) (hlt : q < n + 1) :
    (⌊q⌋).toNat = n := by
  have hf : ⌊q⌋ = (n : ℤ) := by
    rw [Int.floor_eq_iff]
    constructor
    · exact_mod_cast hle
    · exact_mod_cast hlt
  rw [hf]
  exact Int.toNat_natCast n

/-! ## Claim theorems and witnesses -/

/-- C6: the bulk sender returns exactly one outcome per input message,
in input order (position `k` of the output corresponds to position `k`
of the input), each tagged with that message's phone number; a task
that raises (e.g. a timeout) yields a failed record for that message
alone, never aborting its batch or the remaining batches. -/
theorem send_bulk_sms_outcomes (send : BulkMessage → SendOutcome)
    (msgs : List BulkMessage) :
    (send_bulk_sms send msgs).length = msgs.length ∧
    (∀ k : ℕ, (send_bulk_sms send msgs).get? k =
      (msgs.get? k).map (bulkOutcomeOf send)) ∧
    (∀ m, (bulkOutcomeOf send m).phone = m.phone) ∧
    (∀ m e, send m = .exn e → bulkOutcomeOf send m =
      { success := false, message_id := none, status := "failed",
        error := some e, phone := m.phone }) := by
  have h := send_bulk_sms_eq_map send msgs
  refine ⟨by rw [h, List.length_map], fun k => by rw [h, List.get?_map],
    fun m => ?_, fun m e he => ?_⟩
  · unfold bulkOutcomeOf
    cases send m <;> rfl
  · unfold bulkOutcomeOf
    rw [he]

/-- Witness for C6: ten messages where the seventh raises a timeout
still produce ten outcomes, in order, with only the seventh failed. -/
theorem send_bulk_sms_outcomes_witness :
    (send_bulk_sms exampleSendOracle exampleBulkMessages).length = 10 ∧
    ((send_bulk_sms exampleSendOracle exampleBulkMessages).map fun r => r.success) =
      [true, true, true, true, true, true, false, true, true, true] ∧
    ((send_bulk_sms exampleSendOracle exampleBulkMessages).map fun r => r.phone) =
      ["0", "1", "2", "3", "4", "5", "6", "7", "8", "9"] := by
  refine ⟨(send_bulk_sms_outcomes exampleSendOracle exampleBulkMessages).1.trans
    (by decide), ?_, ?_⟩ <;>
  · rw [send_bulk_sms_eq_map]
    decide

/-- C2 (exhibits the defect): the delivery-report webhook as written
never reconciles anything — the query on the nonexistent
`Message.provider_message_id` attribute raises `AttributeError` on
every callback, so both the first and the repeated "delivered" callback
return an error and leave every message and counter untouched. -/
theorem handle_delivery_report_never_reconciles :
    handle_delivery_report exampleMessagingDb examplePayload 5 =
      (.error "Internal server error", exampleMessagingDb) ∧
    handle_delivery_report
        (handle_delivery_report exampleMessagingDb examplePayload 5).2 examplePayload 6 =
      (.error "Internal server error", exampleMessagingDb) ∧
    (exampleMessagingDb.messages.map fun m => m.status) = [.pending] ∧
    (exampleMessagingDb.campaigns.map fun c => (c.delivered_count, c.failed_count)) =
      [(0, 0)] := by
  decide

/-- C8 (exhibits the defect): the callback that would complete the
campaign (its only message reports "delivered", after which
delivered + failed reaches the total of 1) errors out in the handler
and the campaign stays `sending`; the reconciliation body the
attribute slip makes unreachable would mark the message delivered,
re-derive the counts and transition the campaign to `sent`. -/
theorem handle_delivery_report_no_completion_transition :
    handle_delivery_report exampleMessagingDb examplePayload 5 =
      (.error "Internal server error", exampleMessagingDb) ∧
    ((handle_delivery_report exampleMessagingDb examplePayload 5).2.campaigns.map
      fun c => c.status) = [.sending] ∧
    ((reconcile_delivery_report exampleMessagingDb "SM1" "delivered" none 5).2.campaigns.map
      fun c => (c.status, c.delivered_count, c.failed_count, c.sent_at)) =
      [(.sent, 1, 0, some 5)] := by
  decide

/-- The reconciliation body (with the join fixed to the model's actual
provider-id column) is idempotent at the example state: repeating the
same "delivered" callback reproduces the state after the first
application exactly. -/
theorem reconcile_delivery_report_idempotent_example :
    reconcile_delivery_report
        (reconcile_delivery_report exampleMessagingDb "SM1" "delivered" none 5).2
        "SM1" "delivered" none 5 =
      reconcile_delivery_report exampleMessagingDb "SM1" "delivered" none 5 := by
  decide

/-- C3: starting a draft test whose owner's contact population is below
`minimum_sample_size` fails with the count-carrying error
("Not enough contacts. Need {needed}, have {actual}") and returns the
committed state unchanged — the status stays `draft` and nothing else
is mutated, since the run reaches no commit. -/
theorem start_insufficient_sample_leaves_draft (db : ABTestDb)
    (cid uid now : ℕ) (shuffle : List Contact → List Contact)
    (c : ABTestCampaign)
    (hc : db.campaigns.find? (fun x => x.id == cid && x.user_id == uid) = some c)
    (hdraft : c.status = TestStatus.draft)
    (hlt : (user_contacts db uid).length < c.minimum_sample_size) :
    start_ab_test db cid uid shuffle now =
      (.error (.notEnoughContacts c.minimum_sample_size
        (user_contacts db uid).length), db) := by
  unfold start_ab_test
  simp only [hc]
  rw [if_neg (by rw [hdraft]; simp), if_pos hlt]

/-- Witness for C3: a 40-contact population against a
minimum sample size of 100 (the spec's scenario). -/
theorem start_insufficient_sample_witness :
    start_ab_test exampleDb40 1 7 (fun l => l) 0 =
      (.error (.notEnoughContacts 100 40), exampleDb40) := by
  have h := start_insufficient_sample_leaves_draft exampleDb40 1 7 0
    (fun l => l) exampleCampaign rfl rfl (by decide)
  exact h

/-- C4: for a shuffled population that is a permutation of the input
population, the variant split assigns exactly `⌊N·s⌋` contacts to
variant A and `N - ⌊N·s⌋` to variant B, and together the two groups are
a permutation of the population — no contact duplicated, none omitted
(in particular the union is duplicate-free whenever the population
is). -/
theorem variant_split_counts_partition (population shuffled : List Contact)
    (s : ℚ) (hperm : shuffled.Perm population) (h0 : 0 ≤ s) (h1 : s ≤ 1) :
    (variant_split shuffled s).1.length = (⌊(population.length : ℚ) * s⌋).toNat ∧
    (variant_split shuffled s).2.length =
      population.length - (⌊(population.length : ℚ) * s⌋).toNat ∧
    ((variant_split shuffled s).1 ++ (variant_split shuffled s).2).Perm population ∧
    (population.Nodup →
      ((variant_split shuffled s).1 ++ (variant_split shuffled s).2).Nodup) := by
  have hl : shuffled.length = population.length := hperm.length_eq
  have happ : (variant_split shuffled s).1 ++ (variant_split shuffled s).2 =
      shuffled := by
    simp [variant_split]
  have hsp := floor_mul_toNat_le population.length s h1
  refine ⟨?_, ?_, ?_, ?_⟩
  · simp only [variant_split, List.length_take, hl]
    omega
  · simp only [variant_split, List.length_drop, hl]
  · rw [happ]
    exact hperm
  · intro hn
    rw [happ]
    exact hperm.nodup_iff.2 hn

/-- Witness for C4: a three-contact population, shuffled, split 50/50:
1 contact to A, 2 to B, and the groups repartition the population. -/
theorem variant_split_counts_partition_witness :
    ([(⟨3, 7⟩ : Contact), ⟨1, 7⟩, ⟨2, 7⟩]).Perm
        [(⟨1, 7⟩ : Contact), ⟨2, 7⟩, ⟨3, 7⟩] ∧
    (variant_split [(⟨3, 7⟩ : Contact), ⟨1, 7⟩, ⟨2, 7⟩] (1/2)).1.length = 1 ∧
    (variant_split [(⟨3, 7⟩ : Contact), ⟨1, 7⟩, ⟨2, 7⟩] (1/2)).2.length = 2 ∧
    ((variant_split [(⟨3, 7⟩ : Contact), ⟨1, 7⟩, ⟨2, 7⟩] (1/2)).1 ++
      (variant_split [(⟨3, 7⟩ : Contact), ⟨1, 7⟩, ⟨2, 7⟩] (1/2)).2).Perm
      [(⟨1, 7⟩ : Contact), ⟨2, 7⟩, ⟨3, 7⟩] := by
  have hperm : ([(⟨3, 7⟩ : Contact), ⟨1, 7⟩, ⟨2, 7⟩]).Perm
      [(⟨1, 7⟩ : Contact), ⟨2, 7⟩, ⟨3, 7⟩] := by decide
  have h := variant_split_counts_partition
    [(⟨1, 7⟩ : Contact), ⟨2, 7⟩, ⟨3, 7⟩] [(⟨3, 7⟩ : Contact), ⟨1, 7⟩, ⟨2, 7⟩]
    (1/2) hperm (by norm_num) (by norm_num)
  have hf : (⌊(([(⟨1, 7⟩ : Contact), ⟨2, 7⟩, ⟨3, 7⟩]).length : ℚ) * (1/2)⌋).toNat = 1 :=
    floor_toNat_eq _ 1 (by norm_num) (by norm_num)
  refine ⟨hperm, h.1.trans hf, h.2.1.trans ?_, h.2.2.1⟩
  rw [hf]
  decide

/-- C7 (refutes the validation claim): `create_ab_test` accepts a
specification with three variants and a traffic split of 3/2 — outside
the documented contract on both counts — returning success and
persisting the campaign (in draft) together with all three variants. -/
theorem create_accepts_invalid_spec :
    (create_ab_test emptyABTestDb 1 exampleBadTestData 1 1).1 = .success 1 ∧
    ((create_ab_test emptyABTestDb 1 exampleBadTestData 1 1).2.campaigns.map
      fun c => (c.status, c.traffic_split)) = [(.draft, 3/2)] ∧
    (create_ab_test emptyABTestDb 1 exampleBadTestData 1 1).2.variants.length = 3 ∧
    exampleBadTestData.variants.length ≠ 2 ∧
    ¬ (0 < exampleBadTestData.traffic_split ∧
        exampleBadTestData.traffic_split < 1) := by
  refine ⟨rfl, rfl, rfl, by decide, ?_⟩
  rw [show exampleBadTestData.traffic_split = 3/2 from rfl]
  norm_num

/-- C7 (amended): `create_ab_test` performs no validation at all — for
every input it returns success and persists one new draft campaign
carrying the supplied traffic split verbatim, plus one variant row per
supplied variant, whatever the variant count or split value. -/
theorem create_ab_test_persists_any_spec (db : ABTestDb) (uid : ℕ)
    (td : TestData) (cid vid : ℕ) :
    ∃ db' camp, create_ab_test db uid td cid vid = (.success cid, db') ∧
      db'.campaigns = db.campaigns ++ [camp] ∧
      camp.status = .draft ∧
      camp.traffic_split = td.traffic_split ∧
      camp.confidence_level = td.confidence_level ∧
      db'.variants.length = db.variants.length + td.variants.length ∧
      ((db'.variants.drop db.variants.length).map fun v => v.variant_name) =
        td.variants.map fun v => v.variant_name := by
  refine ⟨_, _, rfl, rfl, rfl, rfl, rfl, ?_, ?_⟩
  · simp [create_ab_test]
  · simp only [create_ab_test, List.drop_left, List.map_map]
    have : ((fun v : ABTestVariantRec => v.variant_name) ∘
        fun iv : ℕ × VariantData =>
          ({ id := vid + iv.1, campaign_id := cid, variant_name := iv.2.variant_name,
             variant_type := td.test_type, message_content := iv.2.message_content,
             sender_id := iv.2.sender_id, send_time := iv.2.send_time,
             subject_line := iv.2.subject_line, recipients_count := 0,
             delivered_count := 0, opened_count := 0, clicked_count := 0,
             replied_count := 0 } : ABTestVariantRec)) =
        (fun v : VariantData => v.variant_name) ∘ Prod.snd := rfl
    rw [this, ← List.map_map, List.enum_map_snd]

/-- C9 (refutes monotonicity): a metrics update carrying a smaller
value overwrites the counter — a running campaign with 5 recorded
variant-A opens drops to 3 when the update supplies 3. -/
theorem update_metrics_can_decrease_counter :
    ((update_ab_test_metrics exampleDbFiveOpens 1 exampleMetricsThreeOpens).1
      = .ok) ∧
    ((update_ab_test_metrics exampleDbFiveOpens 1
        exampleMetricsThreeOpens).2.campaigns.map fun c => c.variant_a_opened)
      = [3] ∧
    (exampleDbFiveOpens.campaigns.map fun c => c.variant_a_opened) = [5] ∧
    (exampleDbFiveOpens.campaigns.map fun c => c.status) = [.running] := by
  decide

/-- C9 (amended): `update_ab_test_metrics` overwrites each supplied
counter with the supplied value, so the per-variant counters are
non-decreasing exactly when every supplied value is at least the
current one — under that hypothesis every counter is monotone (and the
campaign status is untouched); the delivery reconciler never modifies a
test's per-variant counters. -/
theorem update_metrics_monotone_of_ge (db : ABTestDb) (cid : ℕ)
    (m : MetricsData) (c : ABTestCampaign)
    (hc : db.campaigns.find? (fun x => x.id == cid) = some c)
    (h1 : ∀ v ∈ m.variant_a_recipients, c.variant_a_recipients ≤ v)
    (h2 : ∀ v ∈ m.variant_b_recipients, c.variant_b_recipients ≤ v)
    (h3 : ∀ v ∈ m.variant_a_delivered, c.variant_a_delivered ≤ v)
    (h4 : ∀ v ∈ m.variant_b_delivered, c.variant_b_delivered ≤ v)
    (h5 : ∀ v ∈ m.variant_a_opened, c.variant_a_opened ≤ v)
    (h6 : ∀ v ∈ m.variant_b_opened, c.variant_b_opened ≤ v)
    (h7 : ∀ v ∈ m.variant_a_clicked, c.variant_a_clicked ≤ v)
    (h8 : ∀ v ∈ m.variant_b_clicked, c.variant_b_clicked ≤ v)
    (h9 : ∀ v ∈ m.variant_a_replied, c.variant_a_replied ≤ v)
    (h10 : ∀ v ∈ m.variant_b_replied, c.variant_b_replied ≤ v) :
    ∃ c', update_ab_test_metrics db cid m =
        (.ok, { db with campaigns := db.campaigns.map fun x =>
          if x.id == cid then c' else x }) ∧
      c.variant_a_recipients ≤ c'.variant_a_recipients ∧
      c.variant_b_recipients ≤ c'.variant_b_recipients ∧
      c.variant_a_delivered ≤ c'.variant_a_delivered ∧
      c.variant_b_delivered ≤ c'.variant_b_delivered ∧
      c.variant_a_opened ≤ c'.variant_a_opened ∧
      c.variant_b_opened ≤ c'.variant_b_opened ∧
      c.variant_a_clicked ≤ c'.variant_a_clicked ∧
      c.variant_b_clicked ≤ c'.variant_b_clicked ∧
      c.variant_a_replied ≤ c'.variant_a_replied ∧
      c.variant_b_replied ≤ c'.variant_b_replied ∧
      c'.status = c.status := by
  unfold update_ab_test_metrics
  simp only [hc]
  refine ⟨_, rfl, ?_, ?_, ?_, ?_, ?_, ?_, ?_, ?_, ?_, ?_, ?_⟩ <;>
  · split_ifs <;>
      first
        | exact le_getD h1 | exact le_getD h2 | exact le_getD h3
        | exact le_getD h4 | exact le_getD h5 | exact le_getD h6
        | exact le_getD h7 | exact le_getD h8 | exact le_getD h9
        | exact le_getD h10 | rfl

/-- Witness for the amended C9: an update supplying 9 opens (at least
the recorded 5) leaves every counter at or above its previous value. -/
theorem update_metrics_monotone_witness :
    ∃ c', update_ab_test_metrics exampleDbFiveOpens 1
        { variant_a_opened := some 9 } =
      (.ok, { exampleDbFiveOpens with
        campaigns := exampleDbFiveOpens.campaigns.map fun x =>
          if x.id == 1 then c' else x }) ∧
      exampleRunningFiveOpens.variant_a_opened ≤ c'.variant_a_opened := by
  obtain ⟨c', heq, hm⟩ := update_metrics_monotone_of_ge exampleDbFiveOpens 1
    { variant_a_opened := some 9 } exampleRunningFiveOpens rfl
    forall_mem_none_le forall_mem_none_le forall_mem_none_le forall_mem_none_le
    (forall_mem_some_le (by decide)) forall_mem_none_le forall_mem_none_le
    forall_mem_none_le forall_mem_none_le forall_mem_none_le
  exact ⟨c', heq, hm.2.2.2.2.1⟩

/-- C5: with at least one recipient per variant and no conversions in
either variant (both rates zero, hence a pooled standard error of
zero), `analyze_ab_test` completes without any arithmetic error — the
`se > 0` guard routes the z-score to 0, the p-value evaluates to 1 —
and reports the winner as "inconclusive". -/
theorem analyze_zero_rates_inconclusive (c : ABTestCampaign)
    (hna : 0 < c.variant_a_recipients) (hnb : 0 < c.variant_b_recipients)
    (hoa : c.variant_a_opened = 0) (hob : c.variant_b_opened = 0)
    (hconf : 0 ≤ c.confidence_level) :
    analyze_ab_test c = .success (mkAnalysis c (some "inconclusive") 0) := by
  have hra : rate_a c = 0 := by
    unfold rate_a
    rw [hoa]
    simp
  have hrb : rate_b c = 0 := by
    unfold rate_b
    rw [hob]
    simp
  have hpp : p_pooled c = 0 := by
    unfold p_pooled
    rw [hoa, hob]
    simp
  have hsa : se_arg c = 0 := by
    unfold se_arg
    rw [hpp]
    ring
  have hse : standard_error c = 0 := by
    unfold standard_error
    rw [hsa, Real.sqrt_zero]
  have hz : z_score c = 0 := by
    unfold z_score
    rw [hse]
    simp
  have hp : p_value c = 1 := by
    unfold p_value normal_cdf
    rw [hz, abs_zero, zero_div, erf_zero]
    ring
  have hcr : (0:ℝ) ≤ (c.confidence_level : ℝ) := by exact_mod_cast hconf
  unfold analyze_ab_test
  rw [if_neg (by omega), if_neg (by rw [hsa]; norm_num),
    if_neg (by rw [hra, hrb, Real.sqrt_zero]; norm_num),
    if_neg (by rw [hp]; push_neg; linarith)]

/-- Witness for C5: 50 recipients per variant, zero opens each. -/
theorem analyze_zero_rates_inconclusive_witness :
    analyze_ab_test exampleRunningZeroOpens =
      .success (mkAnalysis exampleRunningZeroOpens (some "inconclusive") 0) :=
  analyze_zero_rates_inconclusive exampleRunningZeroOpens (by decide)
    (by decide) rfl rfl (by norm_num [exampleRunningZeroOpens, exampleCampaign])

/-- C10: when variant A has recipients but zero conversions while the
Z-test comes out significant (p-value below `1 - confidence_level`),
the winner-B branch divides by `rate_a = 0`
(`improvement_percentage = (rate_b - rate_a) / rate_a * 100`), so
`analyze_ab_test` raises `ZeroDivisionError`, returns a failure and
persists no `ABTestResult` snapshot. -/
theorem analyze_zero_rate_a_significant_raises (c : ABTestCampaign)
    (hna : 0 < c.variant_a_recipients) (hnb : 0 < c.variant_b_recipients)
    (hoa : c.variant_a_opened = 0)
    (hob : c.variant_b_opened ≤ c.variant_b_recipients)
    (hconf : 0 ≤ c.confidence_level)
    (hsig : p_value c < 1 - (c.confidence_level : ℝ)) :
    analyze_ab_test c = .failure .zeroDivisionError ∧
      analysis_results_added c = [] := by
  have hnaa : (0:ℝ) < (c.variant_a_recipients : ℝ) := by exact_mod_cast hna
  have hnba : (0:ℝ) < (c.variant_b_recipients : ℝ) := by exact_mod_cast hnb
  have hra : rate_a c = 0 := by
    unfold rate_a
    rw [hoa]
    simp
  have hrb0 : 0 ≤ rate_b c := div_nonneg (by positivity) (by positivity)
  have hrb1 : rate_b c ≤ 1 := by
    unfold rate_b
    rw [div_le_one hnba]
    exact_mod_cast hob
  have hpp0 : 0 ≤ p_pooled c := div_nonneg (by positivity) (by positivity)
  have hpp1 : p_pooled c ≤ 1 := by
    unfold p_pooled
    rw [div_le_one (by linarith)]
    have h1 : (c.variant_b_opened : ℝ) ≤ (c.variant_b_recipients : ℝ) := by
      exact_mod_cast hob
    have h2 : (c.variant_a_opened : ℝ) = 0 := by
      rw [hoa]
      norm_num
    linarith
  have hsa0 : 0 ≤ se_arg c := by
    unfold se_arg
    have ha : 0 ≤ p_pooled c * (1 - p_pooled c) :=
      mul_nonneg hpp0 (by linarith)
    have hb : 0 ≤ 1 / (c.variant_a_recipients : ℝ) +
        1 / (c.variant_b_recipients : ℝ) := by positivity
    exact mul_nonneg ha hb
  have hcr : (0:ℝ) ≤ (c.confidence_level : ℝ) := by exact_mod_cast hconf
  have hrbpos : 0 < rate_b c := by
    rcases lt_or_eq_of_le hrb0 with h | h
    · exact h
    · exfalso
      have hob0 : c.variant_b_opened = 0 := by
        by_contra hne
        have hpos : (0:ℝ) < (c.variant_b_opened : ℝ) := by
          exact_mod_cast Nat.pos_of_ne_zero hne
        have hgt : 0 < rate_b c := div_pos hpos hnba
        rw [← h] at hgt
        exact lt_irrefl 0 hgt
      have hpp : p_pooled c = 0 := by
        unfold p_pooled
        rw [hoa, hob0]
        simp
      have hsa : se_arg c = 0 := by
        unfold se_arg
        rw [hpp]
        ring
      have hse : standard_error c = 0 := by
        unfold standard_error
        rw [hsa, Real.sqrt_zero]
      have hz : z_score c = 0 := by
        unfold z_score
        rw [hse]
        simp
      have hp1 : p_value c = 1 := by
        unfold p_value normal_cdf
        rw [hz, abs_zero, zero_div, erf_zero]
        ring
      rw [hp1] at hsig
      linarith
  have hmain : analyze_ab_test c = .failure .zeroDivisionError := by
    unfold analyze_ab_test
    rw [if_neg (by omega), if_neg (not_lt.2 hsa0),
      if_neg (by
        push_neg
        exact ⟨Real.sqrt_le_one.2 hrb1, by rw [hra, Real.sqrt_zero]; norm_num⟩),
      if_pos hsig, if_pos (by rw [hra]; exact hrbpos), if_pos hra]
  refine ⟨hmain, ?_⟩
  unfold analysis_results_added
  rw [hmain]

/-- Witness for C10: 100 recipients per variant, 0 vs 35 opens at 95%
confidence — the Z-test is significant (z² = 1400/33), and the analysis
fails with the division by `rate_a = 0`, persisting nothing. -/
theorem analyze_zero_rate_a_witness :
    analyze_ab_test exampleRunningZeroRateA = .failure .zeroDivisionError ∧
      analysis_results_added exampleRunningZeroRateA = [] := by
  have hrb : rate_b exampleRunningZeroRateA = 7/20 := by
    unfold rate_b
    rw [show exampleRunningZeroRateA.variant_b_opened = 35 from rfl,
      show exampleRunningZeroRateA.variant_b_recipients = 100 from rfl]
    norm_num
  have hra : rate_a exampleRunningZeroRateA = 0 := by
    unfold rate_a
    rw [show exampleRunningZeroRateA.variant_a_opened = 0 from rfl]
    norm_num
  have hpp : p_pooled exampleRunningZeroRateA = 7/40 := by
    unfold p_pooled
    rw [show exampleRunningZeroRateA.variant_a_opened = 0 from rfl,
      show exampleRunningZeroRateA.variant_b_opened = 35 from rfl,
      show exampleRunningZeroRateA.variant_a_recipients = 100 from rfl,
      show exampleRunningZeroRateA.variant_b_recipients = 100 from rfl]
    norm_num
  have hsa : se_arg exampleRunningZeroRateA = 231/80000 := by
    unfold se_arg
    rw [hpp, show exampleRunningZeroRateA.variant_a_recipients = 100 from rfl,
      show exampleRunningZeroRateA.variant_b_recipients = 100 from rfl]
    norm_num
  have hdiff : rate_b exampleRunningZeroRateA - rate_a exampleRunningZeroRateA
      = 7/20 := by
    rw [hrb, hra]
    norm_num
  have hq : (rate_b exampleRunningZeroRateA - rate_a exampleRunningZeroRateA) ^ 2 /
      (2 * se_arg exampleRunningZeroRateA) = 700/33 := by
    rw [hdiff, hsa]
    norm_num
  have hp : p_value exampleRunningZeroRateA = 1 - erf (Real.sqrt (700/33)) := by
    rw [p_value_eq_one_sub_erf _ (by rw [hsa]; norm_num) (by rw [hdiff]; norm_num),
      hq]
  have hbound : Real.exp (-(700/33 : ℝ)) /
      (Real.sqrt (700/33) * Real.sqrt Real.pi) < 1/20 := by
    apply gauss_tail_bound (r := 4.6) (s := 1.772) (e := 733/33)
    · norm_num
    · norm_num
    · norm_num
    · calc ((1.772 : ℝ)) ^ 2 < 3.141592 := by norm_num
        _ < Real.pi := Real.pi_gt_d6
    · have h := Real.add_one_le_exp ((700 : ℝ)/33)
      calc ((733 : ℝ)/33) = 700/33 + 1 := by norm_num
        _ ≤ Real.exp (700/33) := h
    · norm_num
    · norm_num
  have hplt : p_value exampleRunningZeroRateA < 1/20 := by
    rw [hp]
    exact one_sub_erf_sqrt_lt (by norm_num) hbound
  have hconfr : ((exampleRunningZeroRateA.confidence_level : ℚ) : ℝ) = 19/20 := by
    rw [show exampleRunningZeroRateA.confidence_level = 19/20 from rfl]
    push_cast
    norm_num
  exact analyze_zero_rate_a_significant_raises exampleRunningZeroRateA
    (by decide) (by decide) rfl (by decide)
    (by rw [show exampleRunningZeroRateA.confidence_level = 19/20 from rfl]; norm_num)
    (by rw [hconfr]; linarith)

/-- The analysis half of the 200-contact scenario: with 100 recipients
per variant, 20 vs 35 opens and 95% confidence, the analysis succeeds
with winner "B", a p-value below 0.05 and a 75% improvement. -/
lemma analyze_scenario_hundred (c : ABTestCampaign)
    (hna : c.variant_a_recipients = 100) (hnb : c.variant_b_recipients = 100)
    (hoa : c.variant_a_opened = 20) (hob : c.variant_b_opened = 35)
    (hconf : c.confidence_level = 19/20) :
    ∃ a, analyze_ab_test c = .success a ∧ a.winner = some "B" ∧
      a.p_value < 1/20 ∧ a.improvement_percentage = 75 := by
  have hra : rate_a c = 1/5 := by
    unfold rate_a
    rw [hoa, hna]
    norm_num
  have hrb : rate_b c = 7/20 := by
    unfold rate_b
    rw [hob, hnb]
    norm_num
  have hpp : p_pooled c = 11/40 := by
    unfold p_pooled
    rw [hoa, hob, hna, hnb]
    norm_num
  have hsa : se_arg c = 319/80000 := by
    unfold se_arg
    rw [hpp, hna, hnb]
    norm_num
  have hdiff : rate_b c - rate_a c = 3/20 := by
    rw [hra, hrb]
    norm_num
  have hq : (rate_b c - rate_a c) ^ 2 / (2 * se_arg c) = 900/319 := by
    rw [hdiff, hsa]
    norm_num
  have hp : p_value c = 1 - erf (Real.sqrt (900/319)) := by
    rw [p_value_eq_one_sub_erf _ (by rw [hsa]; norm_num) (by rw [hdiff]; norm_num),
      hq]
  have hbound : Real.exp (-(900/319 : ℝ)) /
      (Real.sqrt (900/319) * Real.sqrt Real.pi) < 1/20 := by
    apply gauss_tail_bound (r := 1.679) (s := 1.772) (e := (544/319) ^ 4)
    · norm_num
    · norm_num
    · norm_num
    · calc ((1.772 : ℝ)) ^ 2 < 3.141592 := by norm_num
        _ < Real.pi := Real.pi_gt_d6
    · calc ((544 : ℝ)/319) ^ 4 = (1 + (900/319)/4) ^ 4 := by norm_num
        _ ≤ Real.exp (900/319) := quarter_pow_le_exp (by norm_num)
    · positivity
    · norm_num
  have hplt : p_value c < 1/20 := by
    rw [hp]
    exact one_sub_erf_sqrt_lt (by norm_num) hbound
  have hsig : p_value c < 1 - (c.confidence_level : ℝ) := by
    rw [hconf]
    push_cast
    linarith
  unfold analyze_ab_test
  rw [if_neg (by rw [hna, hnb]; norm_num), if_neg (by rw [hsa]; norm_num),
    if_neg (by
      push_neg
      rw [hra, hrb]
      exact ⟨Real.sqrt_le_one.2 (by norm_num), Real.sqrt_le_one.2 (by norm_num)⟩),
    if_pos hsig, if_pos (by rw [hra, hrb]; norm_num),
    if_neg (by rw [hra]; norm_num)]
  refine ⟨_, rfl, rfl, hplt, ?_⟩
  show (rate_b c - rate_a c) / rate_a c * 100 = 75
  rw [hra, hrb]
  norm_num

/-- C1: a test started over a 200-contact population at a 0.5 traffic
split assigns 100 recipients to each variant; after variant A records
20 opens and variant B records 35 opens at confidence level 0.95, the
analysis reports winner "B", a p-value strictly below 0.05, and an
improvement percentage of exactly 75. -/
theorem start_and_analyze_scenario_200 (db : ABTestDb) (cid uid now : ℕ)
    (shuffle : List Contact → List Contact) (c : ABTestCampaign)
    (hc : db.campaigns.find? (fun x => x.id == cid && x.user_id == uid) = some c)
    (hdraft : c.status = TestStatus.draft)
    (hsplit : c.traffic_split = 1/2)
    (hconf : c.confidence_level = 19/20)
    (hmin : c.minimum_sample_size ≤ 200)
    (hlen : (user_contacts db uid).length = 200)
    (hshuffle : (shuffle (user_contacts db uid)).Perm (user_contacts db uid))
    (va vb : ABTestVariantRec)
    (hva : ((db.variants.filter fun v => v.campaign_id == cid).find?
      fun v => v.variant_name == "A") = some va)
    (hvb : ((db.variants.filter fun v => v.campaign_id == cid).find?
      fun v => v.variant_name == "B") = some vb) :
    ∃ db' c',
      start_ab_test db cid uid shuffle now = (.ok, db') ∧
      db'.campaigns = db.campaigns.map (fun x => if x.id == c.id then c' else x) ∧
      c'.variant_a_recipients = 100 ∧
      c'.variant_b_recipients = 100 ∧
      ∃ a, analyze_ab_test
          { c' with variant_a_opened := 20, variant_b_opened := 35 } =
            .success a ∧
        a.winner = some "B" ∧ a.p_value < 1/20 ∧ a.improvement_percentage = 75 := by
  have hslen : (shuffle (user_contacts db uid)).length = 200 := by
    rw [hshuffle.length_eq, hlen]
  have hsplitpt : (⌊((200 : ℕ) : ℚ) * c.traffic_split⌋).toNat = 100 := by
    rw [hsplit]
    exact floor_toNat_eq _ 100 (by norm_num) (by norm_num)
  have hA : (variant_split (shuffle (user_contacts db uid)) c.traffic_split).1.length
      = 100 := by
    simp only [variant_split, List.length_take, hslen, hsplitpt]
    omega
  have hB : (variant_split (shuffle (user_contacts db uid)) c.traffic_split).2.length
      = 100 := by
    simp only [variant_split, List.length_drop, hslen, hsplitpt]
  unfold start_ab_test
  simp only [hc]
  rw [if_neg (by rw [hdraft]; simp), if_neg (by rw [hlen]; omega)]
  simp only [hva, hvb]
  refine ⟨_, _, rfl, rfl, hA, hB, ?_⟩
  exact analyze_scenario_hundred _ hA hB rfl rfl hconf

set_option maxRecDepth 8000 in
/-- Witness for C1: the concrete 200-contact state, identity shuffle. -/
theorem start_and_analyze_scenario_200_witness :
    ∃ db' c',
      start_ab_test exampleDb200 1 7 (fun l => l) 0 = (.ok, db') ∧
      db'.campaigns = exampleDb200.campaigns.map
        (fun x => if x.id == exampleCampaign.id then c' else x) ∧
      c'.variant_a_recipients = 100 ∧
      c'.variant_b_recipients = 100 ∧
      ∃ a, analyze_ab_test
          { c' with variant_a_opened := 20, variant_b_opened := 35 } =
            .success a ∧
        a.winner = some "B" ∧ a.p_value < 1/20 ∧ a.improvement_percentage = 75 :=
  start_and_analyze_scenario_200 exampleDb200 1 7 0 (fun l => l) exampleCampaign
    rfl rfl rfl rfl (by decide) (by decide) (List.Perm.refl _)
    exampleVariantA exampleVariantB rfl rfl

end SmsBackend
